import Mathlib

/-!
Verification of the roborock web API client (`roborock/web_api.py`, `roborock/cli.py`).

The Python source is shallowly embedded: pure helpers become Lean functions on
`Nat`-bytes and `String`s; the async REST methods become state-passing functions
over an explicit limiter state, a network-call trace, and an oracle of HTTP
responses; Python exceptions become an `Except` error type distinguishing the
typed `RoborockException` family from untyped errors such as `AttributeError`.
-/

namespace Roborock

/-! ### Byte-level primitives: UTF-8, hex, 32-bit arithmetic -/

/-- UTF-8 encoding of a single character, as Python's `str.encode()` produces. -/
def utf8Enc (c : Char) : List Nat :=
  let n := c.toNat
  if n < 128 then [n]
  else if n < 2048 then [192 + n / 64, 128 + n % 64]
  else if n < 65536 then [224 + n / 4096, 128 + (n / 64) % 64, 128 + n % 64]
  else [240 + n / 262144, 128 + (n / 4096) % 64, 128 + (n / 64) % 64, 128 + n % 64]

/-- The UTF-8 bytes of a string (Python `s.encode()`). -/
def strBytes (s : String) : List Nat :=
  s.data.foldr (fun c acc => utf8Enc c ++ acc) []

/-- Lower-case hex digit. -/
def hexChar (n : Nat) : Char :=
  if n < 10 then Char.ofNat (48 + n) else Char.ofNat (87 + n)

def bytesToHexL (bs : List Nat) : List Char :=
  bs.foldr (fun b acc => hexChar (b / 16) :: hexChar (b % 16) :: acc) []

/-- Lower-case hex rendering of a byte list (Python `hexdigest()`). -/
def bytesToHex (bs : List Nat) : String := ⟨bytesToHexL bs⟩

def mask32 : Nat := 4294967295

def add32 (a b : Nat) : Nat := (a + b) % 4294967296

def rotl32 (x n : Nat) : Nat := (x * 2 ^ n + x / 2 ^ (32 - n)) % 4294967296

def rotr32 (x n : Nat) : Nat := (x / 2 ^ n + x * 2 ^ (32 - n)) % 4294967296

def not32 (x : Nat) : Nat := Nat.xor x mask32

/-! ### MD5 -/

def md5K : List Nat := [
  3614090360, 3905402710, 606105819, 3250441966, 4118548399, 1200080426,
  2821735955, 4249261313, 1770035416, 2336552879, 4294925233, 2304563134,
  1804603682, 4254626195, 2792965006, 1236535329, 4129170786, 3225465664,
  643717713, 3921069994, 3593408605, 38016083, 3634488961, 3889429448,
  568446438, 3275163606, 4107603335, 1163531501, 2850285829, 4243563512,
  1735328473, 2368359562, 4294588738, 2272392833, 1839030562, 4259657740,
  2763975236, 1272893353, 4139469664, 3200236656, 681279174, 3936430074,
  3572445317, 76029189, 3654602809, 3873151461, 530742520, 3299628645,
  4096336452, 1126891415, 2878612391, 4237533241, 1700485571, 2399980690,
  4293915773, 2240044497, 1873313359, 4264355552, 2734768916, 1309151649,
  4149444226, 3174756917, 718787259, 3951481745]

def md5S : List Nat := [
  7, 12, 17, 22, 7, 12, 17, 22, 7, 12, 17, 22, 7, 12, 17, 22,
  5, 9, 14, 20, 5, 9, 14, 20, 5, 9, 14, 20, 5, 9, 14, 20,
  4, 11, 16, 23, 4, 11, 16, 23, 4, 11, 16, 23, 4, 11, 16, 23,
  6, 10, 15, 21, 6, 10, 15, 21, 6, 10, 15, 21, 6, 10, 15, 21]

/-- Round function and message index for MD5 round `i`. -/
def md5FG (i b c d : Nat) : Nat × Nat :=
  if i < 16 then (Nat.lor (Nat.land b c) (Nat.land (not32 b) d), i)
  else if i < 32 then (Nat.lor (Nat.land d b) (Nat.land (not32 d) c), (5 * i + 1) % 16)
  else if i < 48 then (Nat.xor b (Nat.xor c d), (3 * i + 5) % 16)
  else (Nat.xor c (Nat.lor b (not32 d)), (7 * i) % 16)

structure MD5St where
  a : Nat
  b : Nat
  c : Nat
  d : Nat
  deriving DecidableEq, Repr

def md5Step (m : List Nat) (st : MD5St) (i : Nat) : MD5St :=
  let fg := md5FG i st.b st.c st.d
  let rot := rotl32 (add32 (add32 (add32 st.a fg.1) (md5K.getD i 0)) (m.getD fg.2 0)) (md5S.getD i 0)
  ⟨st.d, add32 st.b rot, st.b, st.c⟩

def md5Chunk (st : MD5St) (m : List Nat) : MD5St :=
  let r := (List.range 64).foldl (md5Step m) st
  ⟨add32 st.a r.a, add32 st.b r.b, add32 st.c r.c, add32 st.d r.d⟩

/-- Group bytes into little-endian 32-bit words. -/
def leWords : List Nat → List Nat
  | a :: b :: c :: d :: rest => (a + 256 * b + 65536 * c + 16777216 * d) :: leWords rest
  | _ => []

/-- Group words into 16-word blocks. -/
def chunk16 : List Nat → List (List Nat)
  | w0 :: w1 :: w2 :: w3 :: w4 :: w5 :: w6 :: w7 ::
    w8 :: w9 :: w10 :: w11 :: w12 :: w13 :: w14 :: w15 :: rest =>
      [w0, w1, w2, w3, w4, w5, w6, w7, w8, w9, w10, w11, w12, w13, w14, w15] :: chunk16 rest
  | _ => []

/-- Little-endian 8-byte rendering of a 64-bit value. -/
def le8 (n : Nat) : List Nat :=
  [n % 256, n / 256 % 256, n / 65536 % 256, n / 16777216 % 256,
   n / 4294967296 % 256, n / 1099511627776 % 256,
   n / 281474976710656 % 256, n / 72057594037927936 % 256]

def padZeroCount (len : Nat) : Nat := (120 - (len + 1) % 64) % 64

def md5Pad (msg : List Nat) : List Nat :=
  msg ++ [128] ++ List.replicate (padZeroCount msg.length) 0
      ++ le8 (8 * msg.length % 18446744073709551616)

def md5Init : MD5St := ⟨1732584193, 4023233417, 2562383102, 271733878⟩

def word4le (w : Nat) : List Nat := [w % 256, w / 256 % 256, w / 65536 % 256, w / 16777216 % 256]

/-- MD5 digest of a byte list. -/
def md5Bytes (msg : List Nat) : List Nat :=
  let fin := (chunk16 (leWords (md5Pad msg))).foldl md5Chunk md5Init
  word4le fin.a ++ word4le fin.b ++ word4le fin.c ++ word4le fin.d

/-- Python `hashlib.md5(s.encode()).hexdigest()`. -/
def md5HexStr (s : String) : String := bytesToHex (md5Bytes (strBytes s))

/-! ### SHA-256 and HMAC-SHA256 -/

def shaK : List Nat := [
  1116352408, 1899447441, 3049323471, 3921009573, 961987163, 1508970993,
  2453635748, 2870763221, 3624381080, 310598401, 607225278, 1426881987,
  1925078388, 2162078206, 2614888103, 3248222580, 3835390401, 4022224774,
  264347078, 604807628, 770255983, 1249150122, 1555081692, 1996064986,
  2554220882, 2821834349, 2952996808, 3210313671, 3336571891, 3584528711,
  113926993, 338241895, 666307205, 773529912, 1294757372, 1396182291,
  1695183700, 1986661051, 2177026350, 2456956037, 2730485921, 2820302411,
  3259730800, 3345764771, 3516065817, 3600352804, 4094571909, 275423344,
  430227734, 506948616, 659060556, 883997877, 958139571, 1322822218,
  1537002063, 1747873779, 1955562222, 2024104815, 2227730452, 2361852424,
  2428436474, 2756734187, 3204031479, 3329325298]

/-- Group bytes into big-endian 32-bit words. -/
def beWords : List Nat → List Nat
  | a :: b :: c :: d :: rest => (16777216 * a + 65536 * b + 256 * c + d) :: beWords rest
  | _ => []

def be8 (n : Nat) : List Nat := (le8 n).reverse

def shaPad (msg : List Nat) : List Nat :=
  msg ++ [128] ++ List.replicate (padZeroCount msg.length) 0
      ++ be8 (8 * msg.length % 18446744073709551616)

def shaExtendStep (w : List Nat) (i : Nat) : List Nat :=
  let w15 := w.getD (i - 15) 0
  let w2 := w.getD (i - 2) 0
  let s0 := Nat.xor (rotr32 w15 7) (Nat.xor (rotr32 w15 18) (w15 / 8))
  let s1 := Nat.xor (rotr32 w2 17) (Nat.xor (rotr32 w2 19) (w2 / 1024))
  w ++ [add32 (add32 (w.getD (i - 16) 0) s0) (add32 (w.getD (i - 7) 0) s1)]

def shaSchedule (m : List Nat) : List Nat :=
  (List.range 48).foldl (fun w j => shaExtendStep w (j + 16)) m

structure Sha8 where
  a : Nat
  b : Nat
  c : Nat
  d : Nat
  e : Nat
  f : Nat
  g : Nat
  h : Nat
  deriving DecidableEq, Repr

def shaRound (w : List Nat) (st : Sha8) (i : Nat) : Sha8 :=
  let s1 := Nat.xor (rotr32 st.e 6) (Nat.xor (rotr32 st.e 11) (rotr32 st.e 25))
  let ch := Nat.xor (Nat.land st.e st.f) (Nat.land (not32 st.e) st.g)
  let t1 := add32 (add32 st.h s1) (add32 (add32 ch (shaK.getD i 0)) (w.getD i 0))
  let s0 := Nat.xor (rotr32 st.a 2) (Nat.xor (rotr32 st.a 13) (rotr32 st.a 22))
  let mj := Nat.xor (Nat.land st.a st.b) (Nat.xor (Nat.land st.a st.c) (Nat.land st.b st.c))
  let t2 := add32 s0 mj
  ⟨add32 t1 t2, st.a, st.b, st.c, add32 st.d t1, st.e, st.f, st.g⟩

def shaInit : Sha8 :=
  ⟨1779033703, 3144134277, 1013904242, 2773480762, 1359893119, 2600822924, 528734635, 1541459225⟩

def shaChunk (st : Sha8) (m : List Nat) : Sha8 :=
  let w := shaSchedule m
  let r := (List.range 64).foldl (shaRound w) st
  ⟨add32 st.a r.a, add32 st.b r.b, add32 st.c r.c, add32 st.d r.d,
   add32 st.e r.e, add32 st.f r.f, add32 st.g r.g, add32 st.h r.h⟩

def word4be (w : Nat) : List Nat := [w / 16777216 % 256, w / 65536 % 256, w / 256 % 256, w % 256]

/-- SHA-256 digest of a byte list. -/
def sha256Bytes (msg : List Nat) : List Nat :=
  let fin := (chunk16 (beWords (shaPad msg))).foldl shaChunk shaInit
  word4be fin.a ++ word4be fin.b ++ word4be fin.c ++ word4be fin.d ++
  word4be fin.e ++ word4be fin.f ++ word4be fin.g ++ word4be fin.h

/-- HMAC-SHA256 (RFC 2104, block size 64), as Python `hmac.new(key, msg, hashlib.sha256)`. -/
def hmacSha256 (key msg : List Nat) : List Nat :=
  let k0 := if key.length > 64 then sha256Bytes key else key
  let kp := k0 ++ List.replicate (64 - k0.length) 0
  let ip := kp.map (fun b => Nat.xor b 54)
  let op := kp.map (fun b => Nat.xor b 92)
  sha256Bytes (op ++ sha256Bytes (ip ++ msg))

/-! ### Base64 -/

def b64Char (n : Nat) : Char :=
  if n < 26 then Char.ofNat (65 + n)
  else if n < 52 then Char.ofNat (97 + (n - 26))
  else if n < 62 then Char.ofNat (48 + (n - 52))
  else if n = 62 then '+' else '/'

def b64Chunks : List Nat → List Char
  | a :: b :: c :: rest =>
      let n := a * 65536 + b * 256 + c
      b64Char (n / 262144) :: b64Char (n / 4096 % 64) :: b64Char (n / 64 % 64) ::
        b64Char (n % 64) :: b64Chunks rest
  | [a, b] =>
      let n := a * 65536 + b * 256
      [b64Char (n / 262144), b64Char (n / 4096 % 64), b64Char (n / 64 % 64), '=']
  | [a] =>
      let n := a * 65536
      [b64Char (n / 262144), b64Char (n / 4096 % 64), '=', '=']
  | [] => []

/-- Standard base64 encoding (Python `base64.b64encode(...).decode()`). -/
def b64encode (bs : List Nat) : String := ⟨b64Chunks bs⟩

/-! ### Python-style string helpers -/

def digitCh (n : Nat) : Char := Char.ofNat (48 + n)

/-- Decimal digits of `n`, most significant first, driven by fuel (`fuel > n` suffices). -/
def natStrAux : Nat → Nat → List Char
  | 0, _ => []
  | fuel + 1, n => if n < 10 then [digitCh n] else natStrAux fuel (n / 10) ++ [digitCh (n % 10)]

/-- Python `str(n)` for a nonnegative integer. -/
def natStr (n : Nat) : String := ⟨natStrAux (n + 1) n⟩

/-- Python `str(i)` for an integer. -/
def intStr : Int → String
  | .ofNat n => natStr n
  | .negSucc n => "-" ++ natStr (n + 1)

/-- Python rendering of an optional string inside an f-string (`None` prints as `"None"`). -/
def pyOptStr : Option String → String
  | none => "None"
  | some s => s

/-- Python rendering of an optional integer inside an f-string. -/
def pyOptIntStr : Option Int → String
  | none => "None"
  | some i => intStr i

/-- First-match association lookup (Python `dict.get`). -/
def plookup (vs : List (String × String)) (k : String) : Option String :=
  match vs with
  | [] => none
  | (k', v) :: rest => if k' = k then some v else plookup rest k

/-- Code-point comparison of character lists, as Python compares strings. -/
def charsLe : List Char → List Char → Bool
  | [], _ => true
  | _ :: _, [] => false
  | a :: as, b :: bs =>
      if a.toNat < b.toNat then true
      else if b.toNat < a.toNat then false
      else charsLe as bs

def strLeB (a b : String) : Bool := charsLe a.data b.data

def insSorted (le : String → String → Bool) (x : String) : List String → List String
  | [] => [x]
  | y :: ys => if le x y then x :: y :: ys else y :: insSorted le x ys

/-- Insertion sort; models Python `sorted` on the dict's keys. -/
def isort (le : String → String → Bool) : List String → List String
  | [] => []
  | x :: xs => insSorted le x (isort le xs)

/-- Python `sep.join(parts)`. -/
def joinSep (sep : String) : List String → String
  | [] => ""
  | [x] => x
  | x :: y :: rest => x ++ sep ++ joinSep sep (y :: rest)

/-! ### Data model

`RRiot` and `UserData` live in `roborock/containers.py`, which is outside the
two provided source files; their fields are modelled from how `web_api.py` and
`cli.py` use them and from the spec's `SigningCredential` (an identifier, a
shared secret, and an endpoint-routing hint). -/

structure RRiotRef where
  a : Option String
  deriving DecidableEq, Repr

structure RRiot where
  u : String
  s : String
  h : String
  r : Option RRiotRef
  deriving DecidableEq, Repr

structure UserData where
  rriot : Option RRiot
  token : String
  deriving DecidableEq, Repr

/-- The nested `data` dict of REST responses, restricted to the fields the
embedded methods read (`url` for `getUrlByEmail`, `rrHomeId` for `getHomeDetail`). -/
structure HomeDetail where
  url : Option String
  rrHomeId : Option Int
  deriving DecidableEq, Repr

/-- The JSON value under `"data"`: a dict, or some other JSON type. -/
inductive DataVal
  | dictD (d : HomeDetail)
  | otherD
  deriving DecidableEq, Repr

/-- The JSON shape of the `"result"` field (only its type is inspected by the code). -/
inductive ResShape
  | dictS
  | listS
  | otherS
  deriving DecidableEq, Repr

/-- A decoded JSON response body, restricted to the fields the embedded methods read. -/
structure RestResponse where
  code : Option Int
  msg : Option String
  errVal : Option String
  dataVal : Option DataVal
  success : Bool
  result : Option ResShape
  deriving DecidableEq, Repr

/-- The typed exception classes of `roborock/exceptions.py` that `web_api.py` raises. -/
inductive ErrKind
  | generic
  | urlErr
  | invalidCode
  | noUserAgreement
  | invalidUserAgreement
  | invalidCredentials
  | accountDoesNotExist
  | tooFrequentCodeRequests
  | tooManyRequest
  | invalidEmail
  | missingParameters
  | rateLimit
  deriving DecidableEq, Repr

/-- A raised Python exception: either a member of the typed `RoborockException`
family (with its message, or with the raw response it carries), or an untyped
builtin error such as `AttributeError`. -/
inductive PyErr
  | rb (kind : ErrKind) (message : String)
  | rbResponse (kind : ErrKind) (resp : RestResponse)
  | attributeError (message : String)
  | keyError (message : String)
  | typeError (message : String)
  deriving DecidableEq, Repr

/-- Whether a raised error belongs to the typed `RoborockException` family. -/
def PyErr.isRoborock : PyErr → Bool
  | .rb _ _ => true
  | .rbResponse _ _ => true
  | _ => false

/-! ### The request signer (`_process_extra_hawk_values`, `_get_hawk_authentication`) -/

/-- Embedding of `_process_extra_hawk_values` from `web_api.py`: for a present dict, sort its
keys, append `key=value` renderings to `result` in that order, join with `&`
and MD5-hex the joined string; `None` yields the empty string. -/
def processExtraHawkValues (values : Option (List (String × String))) : String :=
  match values with
  | none => ""
  | some vs =>
      let sortedKeys := isort strLeB (vs.map Prod.fst)
      let result := sortedKeys.foldl (fun acc key => acc ++ [key ++ "=" ++ pyOptStr (plookup vs key)]) []
      md5HexStr (joinSep "&" result)

/-- Embedding of `_get_hawk_authentication` from `web_api.py`, with the timestamp drawn from
`time.time()` and the nonce drawn from `secrets.token_urlsafe` made explicit
parameters. -/
def getHawkAuthentication (rriot : RRiot) (url : String)
    (formdata : Option (List (String × String))) (params : Option (List (String × String)))
    (timestamp : Nat) (nonce : String) : String :=
  let formdataStr := processExtraHawkValues formdata
  let paramsStr := processExtraHawkValues params
  let prestr := joinSep ":"
      [rriot.u, rriot.s, nonce, natStr timestamp, md5HexStr url, paramsStr, formdataStr]
  let mac := b64encode (hmacSha256 (strBytes rriot.h) (strBytes prestr))
  "Hawk id=\"" ++ rriot.u ++ "\",s=\"" ++ rriot.s ++ "\",ts=\"" ++ natStr timestamp
    ++ "\",nonce=\"" ++ nonce ++ "\",mac=\"" ++ mac ++ "\""

/-- The canonical parameter digest exactly as the spec words it: sort the
parameter keys lexicographically, join them as `key=value` pairs with `&`,
hash the joined string with the fixed digest (MD5, hex); an absent parameter
set digests to the empty string. -/
def canonicalDigestSpec (values : Option (List (String × String))) : String :=
  match values with
  | none => ""
  | some vs =>
      md5HexStr (joinSep "&"
        ((isort strLeB (vs.map Prod.fst)).map (fun key => key ++ "=" ++ pyOptStr (plookup vs key))))

/-- The signer output exactly as the claim words it: the colon-joined string
`u:s:nonce:timestamp:md5hex(path):digest(query):digest(form)`, HMAC-SHA256 over
it keyed by the shared secret, base64 of the MAC, and the structured header
`Hawk id="u",s="s",ts="timestamp",nonce="nonce",mac="mac"`. -/
def hawkHeaderSpec (rriot : RRiot) (path : String)
    (query form : Option (List (String × String))) (timestamp : Nat) (nonce : String) : String :=
  let prestr := rriot.u ++ ":" ++ rriot.s ++ ":" ++ nonce ++ ":" ++ natStr timestamp ++ ":"
      ++ md5HexStr path ++ ":" ++ canonicalDigestSpec query ++ ":" ++ canonicalDigestSpec form
  let mac := b64encode (hmacSha256 (strBytes rriot.h) (strBytes prestr))
  "Hawk id=\"" ++ rriot.u ++ "\",s=\"" ++ rriot.s ++ "\",ts=\"" ++ natStr timestamp
    ++ "\",nonce=\"" ++ nonce ++ "\",mac=\"" ++ mac ++ "\""

/-! ### The rate limiter

`pyrate_limiter` is an external dependency; its rolling-window semantics is
modelled as a list of acquisition timestamps (milliseconds): an acquisition is
admitted only when every configured rate's window still has capacity, and on
rejection nothing is recorded. The two limiters are class attributes of
`RoborockApiClient`, hence process-wide: they live in `LimiterProcState`,
outside any client instance. -/

structure Rate where
  limit : Nat
  interval : Nat
  deriving DecidableEq, Repr

def durSECOND : Nat := 1000
def durMINUTE : Nat := 60000
def durHOUR : Nat := 3600000
def durDAY : Nat := 86400000

/-- Embedding of `RoborockApiClient._LOGIN_RATES`. -/
def LOGIN_RATES : List Rate :=
  [⟨1, durSECOND⟩, ⟨3, durMINUTE⟩, ⟨10, durHOUR⟩, ⟨20, durDAY⟩]

/-- Embedding of `RoborockApiClient._HOME_DATA_RATES`. -/
def HOME_DATA_RATES : List Rate :=
  [⟨1, durSECOND⟩, ⟨5, durMINUTE⟩, ⟨15, durHOUR⟩, ⟨40, durDAY⟩]

/-- How many recorded acquisitions fall inside the rolling window ending at `now`. -/
def countInWindow (now interval : Nat) (items : List Nat) : Nat :=
  (items.filter (fun t => now < t + interval)).length

/-- All-or-nothing acquisition across every window of a category: `none` means
the bucket is full and nothing was recorded. -/
def tryAcquire (rates : List Rate) (items : List Nat) (now : Nat) : Option (List Nat) :=
  if rates.all (fun r => countInWindow now r.interval items < r.limit)
  then some (items ++ [now]) else none

/-- The process-wide limiter state: one timestamp list per category
(`_login_limiter` and `_home_data_limiter` are class attributes shared by all
`RoborockApiClient` instances). -/
structure LimiterProcState where
  loginItems : List Nat
  homeDataItems : List Nat
  deriving DecidableEq, Repr

/-! ### The REST client -/

/-- The per-instance fields of `RoborockApiClient` that the embedded methods read. -/
structure ApiClient where
  username : String
  baseUrl : Option String
  deviceId : String
  deriving DecidableEq, Repr

def defaultBaseUrl : String := "https://euiot.roborock.com"

/-- One issued HTTP request, as recorded in the trace. -/
structure NetCall where
  method : String
  url : String
  headers : List (String × String)
  params : Option (List (String × String))
  deriving DecidableEq, Repr

def isSlash (c : Char) : Bool := c = '/'

/-- Python `s.strip("/")` on the character list. -/
def stripSlashes (l : List Char) : List Char :=
  ((l.dropWhile isSlash).reverse.dropWhile isSlash).reverse

def pyStripSlash (s : String) : String := ⟨stripSlashes s.data⟩

/-- The `_url` computed by `PreparedRequest.request`:
`"/".join(s.strip("/") for s in [self.base_url, url])`. -/
def joinedUrl (base url : String) : String :=
  pyStripSlash base ++ "/" ++ pyStripSlash url

/-- Python `{**base, **overrides}` as a right-biased association-list merge. -/
def mergeHeaders (base hs : List (String × String)) : List (String × String) :=
  base.filter (fun p => (plookup hs p.1).isNone) ++ hs

structure PreparedRequest where
  baseUrl : Option String
  baseHeaders : List (String × String)
  deriving DecidableEq, Repr

/-- Embedding of `PreparedRequest.request`: join the stripped base and relative URLs with a
single `/`, merge the headers, issue the HTTP call (the caller supplies the
decoded JSON body the network returned) and record the call in the trace. A
`None` stored base URL faults exactly where Python calls `strip` on `None`. -/
def PreparedRequest.request (pr : PreparedRequest) (method url : String)
    (params : Option (List (String × String))) (headers : List (String × String))
    (resp : Option RestResponse) : Except PyErr (Option RestResponse) × List NetCall :=
  match pr.baseUrl with
  | none => (.error (.attributeError "'NoneType' object has no attribute 'strip'"), [])
  | some b => (.ok resp, [⟨method, joinedUrl b url, mergeHeaders pr.baseHeaders headers, params⟩])

/-- Outcome of one embedded client method: the returned value or raised error,
the client instance (its cached `base_url` may have changed), the process-wide
limiter state, the trace of issued HTTP requests, and the unconsumed responses. -/
structure MRes (α : Type) where
  result : Except PyErr α
  client : ApiClient
  lim : LimiterProcState
  calls : List NetCall
  rest : List (Option RestResponse)

/-- Draw the next response from the oracle (an exhausted oracle answers `None`). -/
def popResp : List (Option RestResponse) → Option RestResponse × List (Option RestResponse)
  | [] => (none, [])
  | r :: rest => (r, rest)

/-- Python truthiness of `self.base_url` (`None` and `""` are falsy). -/
def pyTruthy : Option String → Bool
  | none => false
  | some s => !s.isEmpty

/-- Embedding of `_get_header_client_id`: base64 of the MD5 over username then device identifier. -/
def getHeaderClientId (c : ApiClient) : String :=
  b64encode (md5Bytes (strBytes c.username ++ strBytes c.deviceId))

/-- Embedding of `RoborockApiClient._get_base_url`: return the cached URL if truthy, else
resolve it via `/api/v1/getUrlByEmail`, mapping the response codes 2003, 1001
and 9002 and caching `data["url"]` on success. -/
def getBaseUrl (c : ApiClient) (lim : LimiterProcState) (oracle : List (Option RestResponse)) :
    MRes (Option String) :=
  if pyTruthy c.baseUrl then ⟨.ok c.baseUrl, c, lim, [], oracle⟩
  else
    let pr : PreparedRequest := ⟨some defaultBaseUrl, []⟩
    let pop := popResp oracle
    let req := pr.request "post" "/api/v1/getUrlByEmail"
        (some [("email", c.username), ("needtwostepauth", "false")]) [] pop.1
    match req.1 with
    | .error e => ⟨.error e, c, lim, req.2, pop.2⟩
    | .ok none => ⟨.error (.rb .urlErr "get url by email returned None"), c, lim, req.2, pop.2⟩
    | .ok (some r) =>
        if r.code ≠ some 200 then
          if r.code = some 2003 then
            ⟨.error (.rb .invalidEmail "Your email was incorrectly formatted."),
             c, lim, req.2, pop.2⟩
          else if r.code = some 1001 then
            ⟨.error (.rb .missingParameters
                "You are missing parameters for this request, are you sure you entered your username?"),
             c, lim, req.2, pop.2⟩
          else if r.code = some 9002 then
            ⟨.error (.rb .tooManyRequest
                "Please temporarily disable making requests and try again later."),
             c, lim, req.2, pop.2⟩
          else
            ⟨.error (.rb .urlErr
                ("error code: " ++ pyOptIntStr r.code ++ " msg: " ++ pyOptStr r.errVal)),
             c, lim, req.2, pop.2⟩
        else
          match r.dataVal with
          | none => ⟨.error (.rb .urlErr "response does not have 'data'"), c, lim, req.2, pop.2⟩
          | some .otherD =>
              ⟨.error (.attributeError "'str' object has no attribute 'get'"), c, lim, req.2, pop.2⟩
          | some (.dictD d) => ⟨.ok d.url, ⟨c.username, d.url, c.deviceId⟩, lim, req.2, pop.2⟩

/-- Embedding of `RoborockApiClient.request_code`: consult the login limiter first, then
resolve the base URL and POST `/api/v1/sendEmailCode`, mapping codes 2008 and
9002 and otherwise raising the generic failure with the body's msg and code. -/
def request_code (c : ApiClient) (lim : LimiterProcState) (now : Nat)
    (oracle : List (Option RestResponse)) : MRes Unit :=
  match tryAcquire LOGIN_RATES lim.loginItems now with
  | none =>
      ⟨.error (.rb .rateLimit "Reached maximum requests for login. Please try again later."),
       c, lim, [], oracle⟩
  | some items =>
    let lim1 : LimiterProcState := ⟨items, lim.homeDataItems⟩
    match getBaseUrl c lim1 oracle with
    | ⟨.error e, c1, l1, cs1, rest1⟩ => ⟨.error e, c1, l1, cs1, rest1⟩
    | ⟨.ok burl, c1, l1, cs1, rest1⟩ =>
      let pr : PreparedRequest := ⟨burl, [("header_clientid", getHeaderClientId c1)]⟩
      let pop := popResp rest1
      let req := pr.request "post" "/api/v1/sendEmailCode"
          (some [("username", c1.username), ("type", "auth")]) [] pop.1
      match req.1 with
      | .error e => ⟨.error e, c1, l1, cs1 ++ req.2, pop.2⟩
      | .ok none =>
          ⟨.error (.rb .generic "Failed to get a response from send email code"),
           c1, l1, cs1 ++ req.2, pop.2⟩
      | .ok (some r) =>
        if r.code ≠ some 200 then
          if r.code = some 2008 then
            ⟨.error (.rb .accountDoesNotExist
                "Account does not exist - check your login and try again."),
             c1, l1, cs1 ++ req.2, pop.2⟩
          else if r.code = some 9002 then
            ⟨.error (.rb .tooFrequentCodeRequests
                "You have attempted to request too many codes. Try again later"),
             c1, l1, cs1 ++ req.2, pop.2⟩
          else
            ⟨.error (.rb .generic (pyOptStr r.msg ++ " - response code: " ++ pyOptIntStr r.code)),
             c1, l1, cs1 ++ req.2, pop.2⟩
        else ⟨.ok (), c1, l1, cs1 ++ req.2, pop.2⟩

/-- Embedding of `RoborockApiClient.pass_login`: consult the login limiter first, then POST
`/api/v1/login`; any non-200 code raises the generic failure, and a non-dict
`data` raises the generic unexpected-type failure. -/
def pass_login (c : ApiClient) (lim : LimiterProcState) (now : Nat) (password : String)
    (oracle : List (Option RestResponse)) : MRes Unit :=
  match tryAcquire LOGIN_RATES lim.loginItems now with
  | none =>
      ⟨.error (.rb .rateLimit "Reached maximum requests for login. Please try again later."),
       c, lim, [], oracle⟩
  | some items =>
    let lim1 : LimiterProcState := ⟨items, lim.homeDataItems⟩
    match getBaseUrl c lim1 oracle with
    | ⟨.error e, c1, l1, cs1, rest1⟩ => ⟨.error e, c1, l1, cs1, rest1⟩
    | ⟨.ok burl, c1, l1, cs1, rest1⟩ =>
      let pr : PreparedRequest := ⟨burl, [("header_clientid", getHeaderClientId c1)]⟩
      let pop := popResp rest1
      let req := pr.request "post" "/api/v1/login"
          (some [("username", c1.username), ("password", password), ("needtwostepauth", "false")])
          [] pop.1
      match req.1 with
      | .error e => ⟨.error e, c1, l1, cs1 ++ req.2, pop.2⟩
      | .ok none => ⟨.error (.rb .generic "Login response is none"), c1, l1, cs1 ++ req.2, pop.2⟩
      | .ok (some r) =>
        if r.code ≠ some 200 then
          ⟨.error (.rb .generic (pyOptStr r.msg ++ " - response code: " ++ pyOptIntStr r.code)),
           c1, l1, cs1 ++ req.2, pop.2⟩
        else
          match r.dataVal with
          | some (.dictD _) => ⟨.ok (), c1, l1, cs1 ++ req.2, pop.2⟩
          | _ =>
              ⟨.error (.rb .generic "Got unexpected data type for user_data"),
               c1, l1, cs1 ++ req.2, pop.2⟩

/-- Embedding of `RoborockApiClient.code_login`: POST `/api/v1/loginWithCode`, mapping codes
2018, 3009 and 3006 and otherwise raising the generic failure with msg and code. -/
def code_login (c : ApiClient) (lim : LimiterProcState) (code : String)
    (oracle : List (Option RestResponse)) : MRes Unit :=
  match getBaseUrl c lim oracle with
  | ⟨.error e, c1, l1, cs1, rest1⟩ => ⟨.error e, c1, l1, cs1, rest1⟩
  | ⟨.ok burl, c1, l1, cs1, rest1⟩ =>
    let pr : PreparedRequest := ⟨burl, [("header_clientid", getHeaderClientId c1)]⟩
    let pop := popResp rest1
    let req := pr.request "post" "/api/v1/loginWithCode"
        (some [("username", c1.username), ("verifycode", code), ("verifycodetype", "AUTH_EMAIL_CODE")])
        [] pop.1
    match req.1 with
    | .error e => ⟨.error e, c1, l1, cs1 ++ req.2, pop.2⟩
    | .ok none =>
        ⟨.error (.rb .generic "Login request response is None"), c1, l1, cs1 ++ req.2, pop.2⟩
    | .ok (some r) =>
      if r.code ≠ some 200 then
        if r.code = some 2018 then
          ⟨.error (.rb .invalidCode "Invalid code - check your code and try again."),
           c1, l1, cs1 ++ req.2, pop.2⟩
        else if r.code = some 3009 then
          ⟨.error (.rb .noUserAgreement
              "You must accept the user agreement in the Roborock app to continue."),
           c1, l1, cs1 ++ req.2, pop.2⟩
        else if r.code = some 3006 then
          ⟨.error (.rb .invalidUserAgreement
              "User agreement must be accepted again - or you are attempting to use the Mi Home app account."),
           c1, l1, cs1 ++ req.2, pop.2⟩
        else
          ⟨.error (.rb .generic (pyOptStr r.msg ++ " - response code: " ++ pyOptIntStr r.code)),
           c1, l1, cs1 ++ req.2, pop.2⟩
      else
        match r.dataVal with
        | some (.dictD _) => ⟨.ok (), c1, l1, cs1 ++ req.2, pop.2⟩
        | _ =>
            ⟨.error (.rb .generic "Got unexpected data type for user_data"),
             c1, l1, cs1 ++ req.2, pop.2⟩

/-- Embedding of `RoborockApiClient._get_home_id`: GET `/api/v1/getHomeDetail` with the
account token, mapping code 2010 to the invalid-credentials error and any other
non-200 code to the generic failure; on success subscript
`response["data"]["rrHomeId"]` (which faults untyped when the keys are absent). -/
def getHomeId (c : ApiClient) (lim : LimiterProcState) (u : UserData)
    (oracle : List (Option RestResponse)) : MRes Int :=
  match getBaseUrl c lim oracle with
  | ⟨.error e, c1, l1, cs1, rest1⟩ => ⟨.error e, c1, l1, cs1, rest1⟩
  | ⟨.ok burl, c1, l1, cs1, rest1⟩ =>
    let pr : PreparedRequest := ⟨burl, [("header_clientid", getHeaderClientId c1)]⟩
    let pop := popResp rest1
    let req := pr.request "get" "/api/v1/getHomeDetail" none [("Authorization", u.token)] pop.1
    match req.1 with
    | .error e => ⟨.error e, c1, l1, cs1 ++ req.2, pop.2⟩
    | .ok none => ⟨.error (.rb .generic "home_id_response is None"), c1, l1, cs1 ++ req.2, pop.2⟩
    | .ok (some r) =>
      if r.code ≠ some 200 then
        if r.code = some 2010 then
          ⟨.error (.rb .invalidCredentials
              ("Invalid credentials (" ++ pyOptStr r.msg ++ ") - check your login and try again.")),
           c1, l1, cs1 ++ req.2, pop.2⟩
        else
          ⟨.error (.rb .generic (pyOptStr r.msg ++ " - response code: " ++ pyOptIntStr r.code)),
           c1, l1, cs1 ++ req.2, pop.2⟩
      else
        match r.dataVal with
        | none => ⟨.error (.keyError "'data'"), c1, l1, cs1 ++ req.2, pop.2⟩
        | some .otherD =>
            ⟨.error (.typeError "string indices must be integers"), c1, l1, cs1 ++ req.2, pop.2⟩
        | some (.dictD d) =>
          match d.rrHomeId with
          | none => ⟨.error (.keyError "'rrHomeId'"), c1, l1, cs1 ++ req.2, pop.2⟩
          | some hid => ⟨.ok hid, c1, l1, cs1 ++ req.2, pop.2⟩

/-- Embedding of `RoborockApiClient.get_home_data`: consult the home-data limiter first, then
check `rriot` for `None`, fetch the home id, check `rriot.r.a`, and GET
`/user/homes/<home_id>` signed for that same path. -/
def get_home_data (c : ApiClient) (lim : LimiterProcState) (now ts : Nat) (nonce : String)
    (u : UserData) (oracle : List (Option RestResponse)) : MRes Unit :=
  match tryAcquire HOME_DATA_RATES lim.homeDataItems now with
  | none =>
      ⟨.error (.rb .rateLimit "Reached maximum requests for home data. Please try again later."),
       c, lim, [], oracle⟩
  | some items =>
    let lim1 : LimiterProcState := ⟨lim.loginItems, items⟩
    match u.rriot with
    | none => ⟨.error (.rb .generic "rriot is none"), c, lim1, [], oracle⟩
    | some rr =>
      match getHomeId c lim1 u oracle with
      | ⟨.error e, c1, l1, cs1, rest1⟩ => ⟨.error e, c1, l1, cs1, rest1⟩
      | ⟨.ok hid, c1, l1, cs1, rest1⟩ =>
        match rr.r with
        | none =>
            ⟨.error (.attributeError "'NoneType' object has no attribute 'a'"),
             c1, l1, cs1, rest1⟩
        | some ref =>
          match ref.a with
          | none =>
              ⟨.error (.rb .generic "Missing field 'a' in rriot reference"), c1, l1, cs1, rest1⟩
          | some abase =>
            let pr : PreparedRequest := ⟨some abase,
                [("Authorization",
                  getHawkAuthentication rr ("/user/homes/" ++ intStr hid) none none ts nonce)]⟩
            let pop := popResp rest1
            let req := pr.request "get" ("/user/homes/" ++ intStr hid) none [] pop.1
            match req.1 with
            | .error e => ⟨.error e, c1, l1, cs1 ++ req.2, pop.2⟩
            | .ok none =>
                ⟨.error (.attributeError "'NoneType' object has no attribute 'get'"),
                 c1, l1, cs1 ++ req.2, pop.2⟩
            | .ok (some r) =>
              if !r.success then
                ⟨.error (.rbResponse .generic r), c1, l1, cs1 ++ req.2, pop.2⟩
              else
                match r.result with
                | some .dictS => ⟨.ok (), c1, l1, cs1 ++ req.2, pop.2⟩
                | _ =>
                    ⟨.error (.rb .generic "home_response result was an unexpected type"),
                     c1, l1, cs1 ++ req.2, pop.2⟩

/-- Embedding of `RoborockApiClient.get_home_data_v2`: as `get_home_data` but against
`/v2/user/homes/<home_id>`. -/
def get_home_data_v2 (c : ApiClient) (lim : LimiterProcState) (now ts : Nat) (nonce : String)
    (u : UserData) (oracle : List (Option RestResponse)) : MRes Unit :=
  match tryAcquire HOME_DATA_RATES lim.homeDataItems now with
  | none =>
      ⟨.error (.rb .rateLimit "Reached maximum requests for home data. Please try again later."),
       c, lim, [], oracle⟩
  | some items =>
    let lim1 : LimiterProcState := ⟨lim.loginItems, items⟩
    match u.rriot with
    | none => ⟨.error (.rb .generic "rriot is none"), c, lim1, [], oracle⟩
    | some rr =>
      match getHomeId c lim1 u oracle with
      | ⟨.error e, c1, l1, cs1, rest1⟩ => ⟨.error e, c1, l1, cs1, rest1⟩
      | ⟨.ok hid, c1, l1, cs1, rest1⟩ =>
        match rr.r with
        | none =>
            ⟨.error (.attributeError "'NoneType' object has no attribute 'a'"),
             c1, l1, cs1, rest1⟩
        | some ref =>
          match ref.a with
          | none =>
              ⟨.error (.rb .generic "Missing field 'a' in rriot reference"), c1, l1, cs1, rest1⟩
          | some abase =>
            let pr : PreparedRequest := ⟨some abase,
                [("Authorization",
                  getHawkAuthentication rr ("/v2/user/homes/" ++ intStr hid) none none ts nonce)]⟩
            let pop := popResp rest1
            let req := pr.request "get" ("/v2/user/homes/" ++ intStr hid) none [] pop.1
            match req.1 with
            | .error e => ⟨.error e, c1, l1, cs1 ++ req.2, pop.2⟩
            | .ok none =>
                ⟨.error (.attributeError "'NoneType' object has no attribute 'get'"),
                 c1, l1, cs1 ++ req.2, pop.2⟩
            | .ok (some r) =>
              if !r.success then
                ⟨.error (.rbResponse .generic r), c1, l1, cs1 ++ req.2, pop.2⟩
              else
                match r.result with
                | some .dictS => ⟨.ok (), c1, l1, cs1 ++ req.2, pop.2⟩
                | _ =>
                    ⟨.error (.rb .generic "home_response result was an unexpected type"),
                     c1, l1, cs1 ++ req.2, pop.2⟩

/-- Printable stand-in for the f-string interpolation of the unexpected
`result` value in `get_home_data_v3`. -/
def shapeStr : Option ResShape → String
  | none => "None"
  | some .dictS => "dict"
  | some .listS => "list"
  | some .otherS => "object"

/-- Embedding of `RoborockApiClient.get_home_data_v3`: like the other two but against
`/v3/user/homes/<home_id>` and, unlike them, it reads `user_data.rriot` without
a `None` check, so `rriot.r` faults with an untyped `AttributeError` when
`rriot` is `None` (the fault fires after `_get_home_id` has already run). -/
def get_home_data_v3 (c : ApiClient) (lim : LimiterProcState) (now ts : Nat) (nonce : String)
    (u : UserData) (oracle : List (Option RestResponse)) : MRes Unit :=
  match tryAcquire HOME_DATA_RATES lim.homeDataItems now with
  | none =>
      ⟨.error (.rb .rateLimit "Reached maximum requests for home data. Please try again later."),
       c, lim, [], oracle⟩
  | some items =>
    let lim1 : LimiterProcState := ⟨lim.loginItems, items⟩
    match getHomeId c lim1 u oracle with
    | ⟨.error e, c1, l1, cs1, rest1⟩ => ⟨.error e, c1, l1, cs1, rest1⟩
    | ⟨.ok hid, c1, l1, cs1, rest1⟩ =>
      match u.rriot with
      | none =>
          ⟨.error (.attributeError "'NoneType' object has no attribute 'r'"),
           c1, l1, cs1, rest1⟩
      | some rr =>
        match rr.r with
        | none =>
            ⟨.error (.attributeError "'NoneType' object has no attribute 'a'"),
             c1, l1, cs1, rest1⟩
        | some ref =>
          match ref.a with
          | none =>
              ⟨.error (.rb .generic "Missing field 'a' in rriot reference"), c1, l1, cs1, rest1⟩
          | some abase =>
            let pr : PreparedRequest := ⟨some abase,
                [("Authorization",
                  getHawkAuthentication rr ("/v3/user/homes/" ++ intStr hid) none none ts nonce)]⟩
            let pop := popResp rest1
            let req := pr.request "get" ("/v3/user/homes/" ++ intStr hid) none [] pop.1
            match req.1 with
            | .error e => ⟨.error e, c1, l1, cs1 ++ req.2, pop.2⟩
            | .ok none =>
                ⟨.error (.attributeError "'NoneType' object has no attribute 'get'"),
                 c1, l1, cs1 ++ req.2, pop.2⟩
            | .ok (some r) =>
              if !r.success then
                ⟨.error (.rbResponse .generic r), c1, l1, cs1 ++ req.2, pop.2⟩
              else
                match r.result with
                | some .dictS => ⟨.ok (), c1, l1, cs1 ++ req.2, pop.2⟩
                | _ =>
                    ⟨.error (.rb .generic
                        ("home_response result was an unexpected type: " ++ shapeStr r.result)),
                     c1, l1, cs1 ++ req.2, pop.2⟩

/-- Embedding of `RoborockApiClient.get_rooms`: signs the Authorization header for
`/v2/user/homes/<home_id>` but issues the GET against
`f"/user/homes/{str(home_id)}/rooms" + str(home_id)`. -/
def get_rooms (c : ApiClient) (lim : LimiterProcState) (ts : Nat) (nonce : String)
    (u : UserData) (homeId : Option Int) (oracle : List (Option RestResponse)) : MRes Unit :=
  match u.rriot with
  | none => ⟨.error (.rb .generic "rriot is none"), c, lim, [], oracle⟩
  | some rr =>
    let step : MRes Int :=
      match homeId with
      | some hid => ⟨.ok hid, c, lim, [], oracle⟩
      | none => getHomeId c lim u oracle
    match step with
    | ⟨.error e, c1, l1, cs1, rest1⟩ => ⟨.error e, c1, l1, cs1, rest1⟩
    | ⟨.ok hid, c1, l1, cs1, rest1⟩ =>
      match rr.r with
      | none =>
          ⟨.error (.attributeError "'NoneType' object has no attribute 'a'"), c1, l1, cs1, rest1⟩
      | some ref =>
        match ref.a with
        | none =>
            ⟨.error (.rb .generic "Missing field 'a' in rriot reference"), c1, l1, cs1, rest1⟩
        | some abase =>
          let pr : PreparedRequest := ⟨some abase,
              [("Authorization",
                getHawkAuthentication rr ("/v2/user/homes/" ++ intStr hid) none none ts nonce)]⟩
          let pop := popResp rest1
          let req := pr.request "get"
              ("/user/homes/" ++ intStr hid ++ "/rooms" ++ intStr hid) none [] pop.1
          match req.1 with
          | .error e => ⟨.error e, c1, l1, cs1 ++ req.2, pop.2⟩
          | .ok none =>
              ⟨.error (.attributeError "'NoneType' object has no attribute 'get'"),
               c1, l1, cs1 ++ req.2, pop.2⟩
          | .ok (some r) =>
            if !r.success then
              ⟨.error (.rbResponse .generic r), c1, l1, cs1 ++ req.2, pop.2⟩
            else
              match r.result with
              | some .listS => ⟨.ok (), c1, l1, cs1 ++ req.2, pop.2⟩
              | _ =>
                  ⟨.error (.rb .generic "home_response result was an unexpected type"),
                   c1, l1, cs1 ++ req.2, pop.2⟩

/-- The per-device broker topic built in `cli.py`:
`f"rr/m/o/{rriot.u}/{params.username}/{device.duid}"`. -/
def deviceTopic (u username duid : String) : String :=
  "rr/m/o/" ++ u ++ "/" ++ username ++ "/" ++ duid

/-- A run of `k` slashes, for stating URL-normalization invariance. -/
def slashes (k : Nat) : String := ⟨List.replicate k '/'⟩

/-! ## Helper lemmas -/

theorem data_app (a b : String) : (a ++ b).data = a.data ++ b.data := String.data_append a b

theorem str_ext {a b : String} (h : a.data = b.data) : a = b := String.ext h

theorem str_app_assoc (a b c : String) : a ++ b ++ c = a ++ (b ++ c) :=
  str_ext (by simp [data_app, List.append_assoc])

theorem foldl_append_singleton {α β : Type} (f : α → β) (l : List α) (acc : List β) :
    l.foldl (fun a k => a ++ [f k]) acc = acc ++ l.map f := by
  induction l generalizing acc with
  | nil => simp
  | cons x xs ih => simp [ih]

theorem process_extra_eq_canonical (v : Option (List (String × String))) :
    processExtraHawkValues v = canonicalDigestSpec v := by
  cases v with
  | none => rfl
  | some vs => simp [processExtraHawkValues, canonicalDigestSpec, foldl_append_singleton]

theorem charsLe_total (a b : List Char) : charsLe a b = true ∨ charsLe b a = true := by
  induction a generalizing b with
  | nil => left; rfl
  | cons x xs ih =>
    cases b with
    | nil => right; rfl
    | cons y ys =>
      by_cases h1 : x.toNat < y.toNat
      · left; simp [charsLe, h1]
      · by_cases h2 : y.toNat < x.toNat
        · right; simp [charsLe, h1, h2]
        · rcases ih ys with h | h
          · left; simp [charsLe, h1, h2, h]
          · right; simp [charsLe, h1, h2, h]

theorem strLeB_total (a b : String) : strLeB a b = true ∨ strLeB b a = true :=
  charsLe_total a.data b.data

theorem mem_insSorted (le : String → String → Bool) (x a : String) (l : List String) :
    a ∈ insSorted le x l ↔ a = x ∨ a ∈ l := by
  induction l with
  | nil => simp [insSorted]
  | cons y ys ih =>
    by_cases h : le x y
    · simp [insSorted, h]
    · simp [insSorted, h, ih]
      tauto

theorem perm_insSorted (le : String → String → Bool) (x : String) (l : List String) :
    List.Perm (insSorted le x l) (x :: l) := by
  induction l with
  | nil => simp [insSorted]
  | cons y ys ih =>
    by_cases h : le x y
    · simp [insSorted, h]
    · simp only [insSorted, h, if_false]
      exact (List.Perm.cons y ih).trans (List.Perm.swap x y ys)

theorem isort_perm (le : String → String → Bool) (l : List String) :
    List.Perm (isort le l) l := by
  induction l with
  | nil => simp [isort]
  | cons x xs ih => exact (perm_insSorted le x (isort le xs)).trans (List.Perm.cons x ih)

theorem charsLe_trans :
    ∀ a b c : List Char, charsLe a b = true → charsLe b c = true → charsLe a c = true := by
  intro a
  induction a with
  | nil => intro b c _ _; rfl
  | cons x xs ih =>
    intro b c hab hbc
    cases b with
    | nil => simp [charsLe] at hab
    | cons y ys =>
      cases c with
      | nil => simp [charsLe] at hbc
      | cons z zs =>
        simp only [charsLe] at hab hbc ⊢
        by_cases h1 : x.toNat < y.toNat
        · by_cases h2 : y.toNat < z.toNat
          · simp [h1.trans h2]
          · by_cases h3 : z.toNat < y.toNat
            · simp [h2, h3] at hbc
            · have hyz : y.toNat = z.toNat := le_antisymm (not_lt.mp h3) (not_lt.mp h2)
              simp [hyz ▸ h1]
        · by_cases h4 : y.toNat < x.toNat
          · simp [h1, h4] at hab
          · have hxy : x.toNat = y.toNat := le_antisymm (not_lt.mp h4) (not_lt.mp h1)
            simp only [h1, if_false, h4] at hab
            by_cases h2 : y.toNat < z.toNat
            · simp [hxy ▸ h2]
            · by_cases h3 : z.toNat < y.toNat
              · simp [h2, h3] at hbc
              · simp only [h2, if_false, h3] at hbc
                have h5 : ¬ x.toNat < z.toNat := by omega
                have h6 : ¬ z.toNat < x.toNat := by omega
                simp [h5, h6, ih ys zs hab hbc]

theorem strLeB_trans (a b c : String) :
    strLeB a b = true → strLeB b c = true → strLeB a c = true :=
  charsLe_trans a.data b.data c.data

theorem pairwise_insSorted (le : String → String → Bool)
    (total : ∀ a b, le a b = true ∨ le b a = true)
    (htrans : ∀ a b c, le a b = true → le b c = true → le a c = true)
    (x : String) (l : List String)
    (h : List.Pairwise (fun a b => le a b = true) l) :
    List.Pairwise (fun a b => le a b = true) (insSorted le x l) := by
  induction l with
  | nil => simp [insSorted]
  | cons y ys ih =>
    obtain ⟨hy, hys⟩ := List.pairwise_cons.mp h
    by_cases hxy : le x y
    · simp only [insSorted, hxy, if_true]
      refine List.Pairwise.cons ?_ (List.Pairwise.cons hy hys)
      intro b hb
      rcases List.mem_cons.mp hb with rfl | hb
      · exact hxy
      · exact htrans x y b hxy (hy b hb)
    · simp only [insSorted, hxy, if_false]
      refine List.Pairwise.cons ?_ (ih hys)
      intro b hb
      rcases (mem_insSorted le x b ys).mp hb with heq | hb
      · rw [heq]
        rcases total x y with h1 | h1
        · exact absurd h1 hxy
        · exact h1
      · exact hy b hb

theorem isort_pairwise (le : String → String → Bool)
    (total : ∀ a b, le a b = true ∨ le b a = true)
    (htrans : ∀ a b c, le a b = true → le b c = true → le a c = true)
    (l : List String) :
    List.Pairwise (fun a b => le a b = true) (isort le l) := by
  induction l with
  | nil => simp [isort]
  | cons x xs ih => exact pairwise_insSorted le total htrans x (isort le xs) ih

/-! ## Claim theorems -/

/-- Claim C1: for every credential, path, query and form parameters, and for the
drawn timestamp and nonce, `_get_hawk_authentication` builds the colon-joined
string `u:s:nonce:timestamp:md5hex(path):digest(query):digest(form)`, computes
an HMAC-SHA256 over it keyed by the credential's shared secret, base64-encodes
the MAC, and outputs `Hawk id="u",s="s",ts="timestamp",nonce="nonce",mac="mac"`
— i.e. it agrees with the spec-worded signer on every input. -/
theorem hawk_header_matches_spec (rr : RRiot) (path : String)
    (query form : Option (List (String × String))) (ts : Nat) (nonce : String) :
    getHawkAuthentication rr path form query ts nonce = hawkHeaderSpec rr path query form ts nonce := by
  have hpre :
      joinSep ":" [rr.u, rr.s, nonce, natStr ts, md5HexStr path,
        canonicalDigestSpec query, canonicalDigestSpec form]
      = rr.u ++ ":" ++ rr.s ++ ":" ++ nonce ++ ":" ++ natStr ts ++ ":"
          ++ md5HexStr path ++ ":" ++ canonicalDigestSpec query ++ ":" ++ canonicalDigestSpec form := by
    apply str_ext
    simp [joinSep, data_app, List.append_assoc]
  simp only [getHawkAuthentication, hawkHeaderSpec, process_extra_eq_canonical, hpre]

/-- Claim C2: `_process_extra_hawk_values` computes, for a present parameter
set, the fixed digest (MD5 hex) of the `&`-joined `key=value` pairs taken in
lexicographically sorted key order (the sort really is a lexicographically
ordered permutation of the keys), and yields the empty string for an absent
(`None`) parameter set. -/
theorem process_extra_hawk_values_canonical :
    (∀ values, processExtraHawkValues values = canonicalDigestSpec values) ∧
    processExtraHawkValues none = "" ∧
    (∀ vs : List (String × String),
      List.Perm (isort strLeB (vs.map Prod.fst)) (vs.map Prod.fst) ∧
      List.Pairwise (fun a b : String => strLeB a b = true) (isort strLeB (vs.map Prod.fst))) := by
  refine ⟨process_extra_eq_canonical, rfl, fun vs => ⟨isort_perm _ _, ?_⟩⟩
  exact isort_pairwise strLeB strLeB_total strLeB_trans (vs.map Prod.fst)

theorem getBaseUrl_lim (c : ApiClient) (lim : LimiterProcState) (o : List (Option RestResponse)) :
    (getBaseUrl c lim o).lim = lim := by
  simp only [getBaseUrl, PreparedRequest.request]
  repeat' first | rfl | split

theorem getHomeId_lim (c : ApiClient) (lim : LimiterProcState) (u : UserData)
    (o : List (Option RestResponse)) : (getHomeId c lim u o).lim = lim := by
  unfold getHomeId
  have hb := getBaseUrl_lim c lim o
  rcases hgb : getBaseUrl c lim o with ⟨res, c1, l1, cs1, rest1⟩
  rw [hgb] at hb
  replace hb : l1 = lim := hb
  cases res with
  | error e => exact hb
  | ok burl =>
    simp only [PreparedRequest.request]
    subst hb
    repeat' first | rfl | split

theorem request_code_lim (c : ApiClient) (lim : LimiterProcState) (now : Nat)
    (o : List (Option RestResponse)) :
    (request_code c lim now o).lim =
      match tryAcquire LOGIN_RATES lim.loginItems now with
      | none => lim
      | some items => ⟨items, lim.homeDataItems⟩ := by
  unfold request_code
  cases htry : tryAcquire LOGIN_RATES lim.loginItems now with
  | none => rfl
  | some items =>
    simp only
    have hb := getBaseUrl_lim c ⟨items, lim.homeDataItems⟩ o
    rcases hgb : getBaseUrl c ⟨items, lim.homeDataItems⟩ o with ⟨res, c1, l1, cs1, rest1⟩
    rw [hgb] at hb
    replace hb : l1 = ⟨items, lim.homeDataItems⟩ := hb
    cases res with
    | error e => exact hb
    | ok burl =>
      simp only [PreparedRequest.request]
      subst hb
      repeat' first | rfl | split

theorem pass_login_lim (c : ApiClient) (lim : LimiterProcState) (now : Nat) (pw : String)
    (o : List (Option RestResponse)) :
    (pass_login c lim now pw o).lim =
      match tryAcquire LOGIN_RATES lim.loginItems now with
      | none => lim
      | some items => ⟨items, lim.homeDataItems⟩ := by
  unfold pass_login
  cases htry : tryAcquire LOGIN_RATES lim.loginItems now with
  | none => rfl
  | some items =>
    simp only
    have hb := getBaseUrl_lim c ⟨items, lim.homeDataItems⟩ o
    rcases hgb : getBaseUrl c ⟨items, lim.homeDataItems⟩ o with ⟨res, c1, l1, cs1, rest1⟩
    rw [hgb] at hb
    replace hb : l1 = ⟨items, lim.homeDataItems⟩ := hb
    cases res with
    | error e => exact hb
    | ok burl =>
      simp only [PreparedRequest.request]
      subst hb
      repeat' first | rfl | split

theorem get_home_data_lim (c : ApiClient) (lim : LimiterProcState) (now ts : Nat)
    (nonce : String) (u : UserData) (o : List (Option RestResponse)) :
    (get_home_data c lim now ts nonce u o).lim =
      match tryAcquire HOME_DATA_RATES lim.homeDataItems now with
      | none => lim
      | some items => ⟨lim.loginItems, items⟩ := by
  unfold get_home_data
  cases htry : tryAcquire HOME_DATA_RATES lim.homeDataItems now with
  | none => rfl
  | some items =>
    simp only
    cases hur : u.rriot with
    | none => rfl
    | some rr =>
      have hb := getHomeId_lim c ⟨lim.loginItems, items⟩ u o
      rcases hgb : getHomeId c ⟨lim.loginItems, items⟩ u o with ⟨res, c1, l1, cs1, rest1⟩
      rw [hgb] at hb
      replace hb : l1 = ⟨lim.loginItems, items⟩ := hb
      cases res with
      | error e => exact hb
      | ok hid =>
        simp only [PreparedRequest.request]
        subst hb
        repeat' first | rfl | split

theorem get_home_data_v2_lim (c : ApiClient) (lim : LimiterProcState) (now ts : Nat)
    (nonce : String) (u : UserData) (o : List (Option RestResponse)) :
    (get_home_data_v2 c lim now ts nonce u o).lim =
      match tryAcquire HOME_DATA_RATES lim.homeDataItems now with
      | none => lim
      | some items => ⟨lim.loginItems, items⟩ := by
  unfold get_home_data_v2
  cases htry : tryAcquire HOME_DATA_RATES lim.homeDataItems now with
  | none => rfl
  | some items =>
    simp only
    cases hur : u.rriot with
    | none => rfl
    | some rr =>
      have hb := getHomeId_lim c ⟨lim.loginItems, items⟩ u o
      rcases hgb : getHomeId c ⟨lim.loginItems, items⟩ u o with ⟨res, c1, l1, cs1, rest1⟩
      rw [hgb] at hb
      replace hb : l1 = ⟨lim.loginItems, items⟩ := hb
      cases res with
      | error e => exact hb
      | ok hid =>
        simp only [PreparedRequest.request]
        subst hb
        repeat' first | rfl | split

theorem get_home_data_v3_lim (c : ApiClient) (lim : LimiterProcState) (now ts : Nat)
    (nonce : String) (u : UserData) (o : List (Option RestResponse)) :
    (get_home_data_v3 c lim now ts nonce u o).lim =
      match tryAcquire HOME_DATA_RATES lim.homeDataItems now with
      | none => lim
      | some items => ⟨lim.loginItems, items⟩ := by
  unfold get_home_data_v3
  cases htry : tryAcquire HOME_DATA_RATES lim.homeDataItems now with
  | none => rfl
  | some items =>
    simp only
    have hb := getHomeId_lim c ⟨lim.loginItems, items⟩ u o
    rcases hgb : getHomeId c ⟨lim.loginItems, items⟩ u o with ⟨res, c1, l1, cs1, rest1⟩
    rw [hgb] at hb
    replace hb : l1 = ⟨lim.loginItems, items⟩ := hb
    cases res with
    | error e => exact hb
    | ok hid =>
      cases hur : u.rriot with
      | none => exact hb
      | some rr =>
        simp only [PreparedRequest.request]
        subst hb
        repeat' first | rfl | split

/-- Claim C5: every one of `request_code`, `pass_login`, `get_home_data`,
`get_home_data_v2` and `get_home_data_v3` consults its category's rate limiter
before any network request; when the limiter rejects, the call raises the
rate-limit error immediately, with an empty network trace, an unchanged
limiter state, an unchanged client, and the response oracle untouched. -/
theorem rate_limit_preflight (c : ApiClient) (lim : LimiterProcState) (now : Nat)
    (oracle : List (Option RestResponse)) :
    (tryAcquire LOGIN_RATES lim.loginItems now = none →
      request_code c lim now oracle =
        ⟨.error (.rb .rateLimit "Reached maximum requests for login. Please try again later."),
         c, lim, [], oracle⟩ ∧
      ∀ pw, pass_login c lim now pw oracle =
        ⟨.error (.rb .rateLimit "Reached maximum requests for login. Please try again later."),
         c, lim, [], oracle⟩) ∧
    (tryAcquire HOME_DATA_RATES lim.homeDataItems now = none →
      ∀ (ts : Nat) (nonce : String) (u : UserData),
        get_home_data c lim now ts nonce u oracle =
          ⟨.error (.rb .rateLimit "Reached maximum requests for home data. Please try again later."),
           c, lim, [], oracle⟩ ∧
        get_home_data_v2 c lim now ts nonce u oracle =
          ⟨.error (.rb .rateLimit "Reached maximum requests for home data. Please try again later."),
           c, lim, [], oracle⟩ ∧
        get_home_data_v3 c lim now ts nonce u oracle =
          ⟨.error (.rb .rateLimit "Reached maximum requests for home data. Please try again later."),
           c, lim, [], oracle⟩) := by
  constructor
  · intro h
    exact ⟨by simp only [request_code, h], fun pw => by simp only [pass_login, h]⟩
  · intro h ts nonce u
    exact ⟨by simp only [get_home_data, h], by simp only [get_home_data_v2, h],
           by simp only [get_home_data_v3, h]⟩

theorem rate_limit_preflight_witness :
    request_code ⟨"u", some "https://api", "d"⟩ ⟨[1000], [1000]⟩ 1500 [] =
      ⟨.error (.rb .rateLimit "Reached maximum requests for login. Please try again later."),
       ⟨"u", some "https://api", "d"⟩, ⟨[1000], [1000]⟩, [], []⟩ ∧
    get_home_data ⟨"u", some "https://api", "d"⟩ ⟨[1000], [1000]⟩ 1500 0 "n" ⟨none, "t"⟩ [] =
      ⟨.error (.rb .rateLimit "Reached maximum requests for home data. Please try again later."),
       ⟨"u", some "https://api", "d"⟩, ⟨[1000], [1000]⟩, [], []⟩ :=
  ⟨((rate_limit_preflight ⟨"u", some "https://api", "d"⟩ ⟨[1000], [1000]⟩ 1500 []).1
      (by decide)).1,
   (((rate_limit_preflight ⟨"u", some "https://api", "d"⟩ ⟨[1000], [1000]⟩ 1500 []).2
      (by decide)) 0 "n" ⟨none, "t"⟩).1⟩

/-- Claim C6: the login and home-data categories have the exact rule lists
`[(1, second), (3, minute), (10, hour), (20, day)]` and
`[(1, second), (5, minute), (15, hour), (40, day)]`, each ordered smallest
window first; acquisitions in one category never touch the other category's
counters; and the limiter state transition of every method is a function of
the process-wide limiter state alone — identical for any two client instances
and any two response oracles. -/
theorem rate_limiter_categories :
    (LOGIN_RATES = [⟨1, 1000⟩, ⟨3, 60000⟩, ⟨10, 3600000⟩, ⟨20, 86400000⟩] ∧
     HOME_DATA_RATES = [⟨1, 1000⟩, ⟨5, 60000⟩, ⟨15, 3600000⟩, ⟨40, 86400000⟩] ∧
     List.Chain' (fun a b : Rate => a.interval < b.interval) LOGIN_RATES ∧
     List.Chain' (fun a b : Rate => a.interval < b.interval) HOME_DATA_RATES) ∧
    (∀ (c : ApiClient) (lim : LimiterProcState) (now : Nat) (pw : String) (ts : Nat)
       (nonce : String) (u : UserData) (o : List (Option RestResponse)),
      (request_code c lim now o).lim.homeDataItems = lim.homeDataItems ∧
      (pass_login c lim now pw o).lim.homeDataItems = lim.homeDataItems ∧
      (get_home_data c lim now ts nonce u o).lim.loginItems = lim.loginItems ∧
      (get_home_data_v2 c lim now ts nonce u o).lim.loginItems = lim.loginItems ∧
      (get_home_data_v3 c lim now ts nonce u o).lim.loginItems = lim.loginItems) ∧
    (∀ (c1 c2 : ApiClient) (lim : LimiterProcState) (now : Nat) (pw : String) (ts : Nat)
       (nonce : String) (u : UserData) (o1 o2 : List (Option RestResponse)),
      (request_code c1 lim now o1).lim = (request_code c2 lim now o2).lim ∧
      (pass_login c1 lim now pw o1).lim = (pass_login c2 lim now pw o2).lim ∧
      (get_home_data c1 lim now ts nonce u o1).lim = (get_home_data c2 lim now ts nonce u o2).lim ∧
      (get_home_data_v2 c1 lim now ts nonce u o1).lim
        = (get_home_data_v2 c2 lim now ts nonce u o2).lim ∧
      (get_home_data_v3 c1 lim now ts nonce u o1).lim
        = (get_home_data_v3 c2 lim now ts nonce u o2).lim) := by
  refine ⟨⟨by decide, by decide,
    by simp [LOGIN_RATES, durSECOND, durMINUTE, durHOUR, durDAY, List.chain'_cons],
    by simp [HOME_DATA_RATES, durSECOND, durMINUTE, durHOUR, durDAY, List.chain'_cons]⟩, ?_, ?_⟩
  · intro c lim now pw ts nonce u o
    refine ⟨?_, ?_, ?_, ?_, ?_⟩
    · rw [request_code_lim]
      cases h : tryAcquire LOGIN_RATES lim.loginItems now <;> rfl
    · rw [pass_login_lim]
      cases h : tryAcquire LOGIN_RATES lim.loginItems now <;> rfl
    · rw [get_home_data_lim]
      cases h : tryAcquire HOME_DATA_RATES lim.homeDataItems now <;> rfl
    · rw [get_home_data_v2_lim]
      cases h : tryAcquire HOME_DATA_RATES lim.homeDataItems now <;> rfl
    · rw [get_home_data_v3_lim]
      cases h : tryAcquire HOME_DATA_RATES lim.homeDataItems now <;> rfl
  · intro c1 c2 lim now pw ts nonce u o1 o2
    exact ⟨by rw [request_code_lim, request_code_lim],
           by rw [pass_login_lim, pass_login_lim],
           by rw [get_home_data_lim, get_home_data_lim],
           by rw [get_home_data_v2_lim, get_home_data_v2_lim],
           by rw [get_home_data_v3_lim, get_home_data_v3_lim]⟩

theorem dropWhile_all {p : Char → Bool} {l1 : List Char} (l2 : List Char)
    (h : ∀ a ∈ l1, p a = true) : (l1 ++ l2).dropWhile p = l2.dropWhile p := by
  induction l1 with
  | nil => rfl
  | cons x xs ih =>
    have hx : p x = true := h x (List.mem_cons_self x xs)
    simp only [List.cons_append, List.dropWhile_cons, hx, if_true]
    exact ih (fun a ha => h a (List.mem_cons_of_mem x ha))

theorem dropWhile_ne_nil_append {p : Char → Bool} {l : List Char} (y : List Char)
    (h : l.dropWhile p ≠ []) : (l ++ y).dropWhile p = l.dropWhile p ++ y := by
  induction l with
  | nil => exact absurd rfl h
  | cons x xs ih =>
    by_cases hx : p x = true
    · simp only [List.dropWhile_cons, hx, if_true] at h ⊢
      simp only [List.cons_append, List.dropWhile_cons, hx, if_true]
      exact ih h
    · simp only [List.dropWhile_cons, hx] at h ⊢
      simp [List.cons_append, List.dropWhile_cons, hx]

theorem rev_replicate (n : Nat) (a : Char) :
    (List.replicate n a).reverse = List.replicate n a := by
  induction n with
  | zero => rfl
  | succ k ih =>
    rw [List.replicate_succ, List.reverse_cons, ih]
    exact (List.replicate_succ' k a).symm

theorem mem_replicate_slash {a : Char} {n : Nat} (h : a ∈ List.replicate n '/') :
    isSlash a = true := by
  rw [(List.eq_of_mem_replicate h : a = '/')]
  rfl

theorem dropWhile_replicate_slash (n : Nat) :
    (List.replicate n '/').dropWhile isSlash = [] := by
  rw [← List.append_nil (List.replicate n '/'),
      dropWhile_all [] (fun a ha => mem_replicate_slash ha)]
  rfl

theorem stripSlashes_pad (l : List Char) (m n : Nat) :
    stripSlashes (List.replicate m '/' ++ l ++ List.replicate n '/') = stripSlashes l := by
  unfold stripSlashes
  rw [List.append_assoc,
      dropWhile_all (l ++ List.replicate n '/') (fun a ha => mem_replicate_slash ha)]
  by_cases h : l.dropWhile isSlash = []
  · have hall : ∀ a ∈ l, isSlash a = true := (List.dropWhile_eq_nil_iff).mp h
    rw [dropWhile_all (List.replicate n '/') hall, dropWhile_replicate_slash, h]
  · rw [dropWhile_ne_nil_append _ h, List.reverse_append, rev_replicate,
        dropWhile_all ((l.dropWhile isSlash).reverse) (fun a ha => mem_replicate_slash ha)]

theorem pyStripSlash_pad (s : String) (m n : Nat) :
    pyStripSlash (slashes m ++ s ++ slashes n) = pyStripSlash s := by
  unfold pyStripSlash
  congr 1
  have hd : (slashes m ++ s ++ slashes n).data
      = List.replicate m '/' ++ s.data ++ List.replicate n '/' := by
    simp [data_app, slashes]
  rw [hd, stripSlashes_pad]

/-- Claim C10: `PreparedRequest.request` targets the URL obtained by stripping
all leading and trailing `/` from the base URL and from the relative URL and
joining the two stripped parts with exactly one `/`; consequently any number of
extra leading or trailing slashes on either part yields the same final URL. -/
theorem prepared_request_url_normalization (b u method : String)
    (bh hs : List (String × String)) (params : Option (List (String × String)))
    (resp : Option RestResponse) (m n p q : Nat) :
    (PreparedRequest.request ⟨some b, bh⟩ method u params hs resp).2
      = [⟨method, pyStripSlash b ++ "/" ++ pyStripSlash u, mergeHeaders bh hs, params⟩] ∧
    joinedUrl (slashes m ++ b ++ slashes n) (slashes p ++ u ++ slashes q) = joinedUrl b u := by
  constructor
  · rfl
  · unfold joinedUrl
    rw [pyStripSlash_pad, pyStripSlash_pad]

theorem append_sep_inj {sep : Char} :
    ∀ {a b x y : List Char}, sep ∉ a → sep ∉ b →
      a ++ sep :: x = b ++ sep :: y → a = b ∧ x = y := by
  intro a
  induction a with
  | nil =>
    intro b x y _ hb h
    cases b with
    | nil => simpa using h
    | cons c bs =>
      simp only [List.nil_append, List.cons_append, List.cons.injEq] at h
      obtain ⟨h1, _⟩ := h
      rw [← h1] at hb
      exact absurd (List.mem_cons_self sep bs) hb
  | cons c as ih =>
    intro b x y ha hb h
    cases b with
    | nil =>
      simp only [List.cons_append, List.nil_append, List.cons.injEq] at h
      obtain ⟨h1, _⟩ := h
      rw [h1] at ha
      exact absurd (List.mem_cons_self sep as) ha
    | cons c' bs =>
      simp only [List.cons_append, List.cons.injEq] at h
      obtain ⟨h1, h2⟩ := h
      subst h1
      have ha' : sep ∉ as := fun hm => ha (List.mem_cons_of_mem c hm)
      have hb' : sep ∉ bs := fun hm => hb (List.mem_cons_of_mem c hm)
      obtain ⟨hab, hxy⟩ := ih ha' hb' h2
      exact ⟨by rw [hab], hxy⟩

/-- Claim C7: the per-device broker topic is the deterministic string
`rr/m/o/<routing-identifier>/<broker-username>/<device-id>` with `/` as the
separator in exactly that order; for slash-free components the format is
unambiguous (topic equality holds exactly when the components agree). -/
theorem device_topic_contract :
    (∀ u username duid, deviceTopic u username duid
        = "rr/m/o/" ++ u ++ "/" ++ username ++ "/" ++ duid) ∧
    ∀ u1 n1 d1 u2 n2 d2 : String,
      '/' ∉ u1.data → '/' ∉ n1.data → '/' ∉ u2.data → '/' ∉ n2.data →
      (deviceTopic u1 n1 d1 = deviceTopic u2 n2 d2 ↔ (u1 = u2 ∧ n1 = n2 ∧ d1 = d2)) := by
  refine ⟨fun u username duid => rfl, ?_⟩
  intro u1 n1 d1 u2 n2 d2 hu1 hn1 hu2 hn2
  constructor
  · intro h
    have hd := congrArg String.data h
    simp only [deviceTopic, data_app] at hd
    simp only [List.append_assoc, List.cons_append, List.nil_append, List.singleton_append,
      List.cons.injEq, true_and] at hd
    obtain ⟨hu, hrest⟩ := append_sep_inj hu1 hu2 hd
    obtain ⟨hn, hdd⟩ := append_sep_inj hn1 hn2 hrest
    exact ⟨str_ext hu, str_ext hn, str_ext hdd⟩
  · rintro ⟨rfl, rfl, rfl⟩
    rfl

theorem device_topic_contract_witness :
    deviceTopic "ab" "cd" "ef" = "rr/m/o/ab/cd/ef" ∧ ("ab" = "ab" ∧ "cd" = "cd" ∧ "ef" = "ef") :=
  ⟨device_topic_contract.1 "ab" "cd" "ef",
   (device_topic_contract.2 "ab" "cd" "ef" "ab" "cd" "ef"
      (by decide) (by decide) (by decide) (by decide)).mp rfl⟩

/-- Claim C9: for every home id, `get_rooms` issues its GET against
`/user/homes/<home_id>/rooms<home_id>` (the home id appended a second time
after `rooms`) while its Authorization header is computed by the signer for the
different path `/v2/user/homes/<home_id>`; the signed path never equals the
requested path. -/
theorem get_rooms_signs_different_path (c : ApiClient) (lim : LimiterProcState) (ts : Nat)
    (nonce : String) (us ss hsec tok abase : String) (hid : Int)
    (oracle : List (Option RestResponse)) :
    (get_rooms c lim ts nonce ⟨some ⟨us, ss, hsec, some ⟨some abase⟩⟩, tok⟩ (some hid) oracle).calls
      = [⟨"get", joinedUrl abase ("/user/homes/" ++ intStr hid ++ "/rooms" ++ intStr hid),
          [("Authorization",
            getHawkAuthentication ⟨us, ss, hsec, some ⟨some abase⟩⟩
              ("/v2/user/homes/" ++ intStr hid) none none ts nonce)], none⟩] ∧
    ("/v2/user/homes/" ++ intStr hid) ≠ ("/user/homes/" ++ intStr hid ++ "/rooms" ++ intStr hid) := by
  constructor
  · simp only [get_rooms, PreparedRequest.request]
    repeat' first | rfl | split
  · intro h
    have hd := congrArg String.data h
    simp [data_app] at hd

theorem get_rooms_signs_different_path_witness :
    (get_rooms ⟨"u", some "b", "d"⟩ ⟨[], []⟩ 3 "n"
        ⟨some ⟨"us", "ss", "hh", some ⟨some "https://a"⟩⟩, "t"⟩ (some 7) []).calls
      = [⟨"get", joinedUrl "https://a" ("/user/homes/" ++ intStr 7 ++ "/rooms" ++ intStr 7),
          [("Authorization",
            getHawkAuthentication ⟨"us", "ss", "hh", some ⟨some "https://a"⟩⟩
              ("/v2/user/homes/" ++ intStr 7) none none 3 "n")], none⟩] ∧
    ("/v2/user/homes/" ++ intStr 7) ≠ ("/user/homes/" ++ intStr 7 ++ "/rooms" ++ intStr 7) :=
  get_rooms_signs_different_path ⟨"u", some "b", "d"⟩ ⟨[], []⟩ 3 "n" "us" "ss" "hh" "t"
    "https://a" 7 []

/-- Claim C8 records the intended behavior: every failure of the home-data
methods should surface as a typed `RoborockException`. The code violates it in
`get_home_data_v3` alone: with `rriot = None` and a well-formed home-id
response, v3 reads `rriot.r` without the `None` check its siblings have and
faults with an untyped `AttributeError`, while `get_home_data` and
`get_home_data_v2` raise the typed "rriot is none" error at the same input. -/
theorem get_home_data_v3_untyped_on_missing_rriot :
    (get_home_data_v3 ⟨"user@example.com", some "https://api.example.com", "dev"⟩ ⟨[], []⟩ 0 0 "n"
        ⟨none, "tok"⟩
        [some ⟨some 200, none, none, some (.dictD ⟨none, some 123⟩), true, none⟩]).result
      = .error (.attributeError "'NoneType' object has no attribute 'r'") ∧
    PyErr.isRoborock (.attributeError "'NoneType' object has no attribute 'r'") = false ∧
    (get_home_data ⟨"user@example.com", some "https://api.example.com", "dev"⟩ ⟨[], []⟩ 0 0 "n"
        ⟨none, "tok"⟩
        [some ⟨some 200, none, none, some (.dictD ⟨none, some 123⟩), true, none⟩]).result
      = .error (.rb .generic "rriot is none") ∧
    (get_home_data_v2 ⟨"user@example.com", some "https://api.example.com", "dev"⟩ ⟨[], []⟩ 0 0 "n"
        ⟨none, "tok"⟩
        [some ⟨some 200, none, none, some (.dictD ⟨none, some 123⟩), true, none⟩]).result
      = .error (.rb .generic "rriot is none") ∧
    PyErr.isRoborock (.rb .generic "rriot is none") = true := by
  exact ⟨rfl, rfl, rfl, rfl, rfl⟩

/-- Claim C4 as stated assigns one global error map to every REST call; the code
instead maps each code only inside the one handler that knows it. At this input
`code_login` receives body code 2008 (the code the claim maps to
"account does not exist") and raises the generic failure, not the typed one. -/
theorem rest_error_map_counterexample :
    (code_login ⟨"user@example.com", some "https://api.example.com", "dev"⟩ ⟨[], []⟩ "1234"
        [some ⟨some 2008, some "account does not exist", none, none, false, none⟩]).result
      = .error (.rb .generic "account does not exist - response code: 2008") ∧
    ErrKind.generic ≠ ErrKind.accountDoesNotExist :=
  ⟨rfl, by decide⟩

/-- Claim C4, amended: each handler maps its own non-200 codes — `code_login`:
2018 invalid code, 3009 no user agreement, 3006 invalid user agreement; the
home-id lookup: 2010 invalid credentials; `request_code`: 2008 account does not
exist, 9002 too-frequent code requests; the base-URL lookup: 2003 invalid
email, 1001 missing parameters, 9002 too many requests. Every other non-200
code raises a generic failure carrying the response's code and msg, except that
the base-URL lookup's generic failure carries the response's `error` field in
place of msg. -/
theorem rest_error_code_map (k : Int) (m e : String) (hk : k ≠ 200) :
    (code_login ⟨"user@example.com", some "https://api.example.com", "dev"⟩ ⟨[], []⟩ "1234"
        [some ⟨some k, some m, some e, none, false, none⟩]).result
      = .error (if k = 2018 then .rb .invalidCode "Invalid code - check your code and try again."
          else if k = 3009 then
            .rb .noUserAgreement "You must accept the user agreement in the Roborock app to continue."
          else if k = 3006 then
            .rb .invalidUserAgreement
              "User agreement must be accepted again - or you are attempting to use the Mi Home app account."
          else .rb .generic (m ++ " - response code: " ++ intStr k)) ∧
    (request_code ⟨"user@example.com", some "https://api.example.com", "dev"⟩ ⟨[], []⟩ 0
        [some ⟨some k, some m, some e, none, false, none⟩]).result
      = .error (if k = 2008 then
            .rb .accountDoesNotExist "Account does not exist - check your login and try again."
          else if k = 9002 then
            .rb .tooFrequentCodeRequests "You have attempted to request too many codes. Try again later"
          else .rb .generic (m ++ " - response code: " ++ intStr k)) ∧
    (getHomeId ⟨"user@example.com", some "https://api.example.com", "dev"⟩ ⟨[], []⟩ ⟨none, "tok"⟩
        [some ⟨some k, some m, some e, none, false, none⟩]).result
      = .error (if k = 2010 then
            .rb .invalidCredentials
              ("Invalid credentials (" ++ m ++ ") - check your login and try again.")
          else .rb .generic (m ++ " - response code: " ++ intStr k)) ∧
    (getBaseUrl ⟨"user@example.com", none, "dev"⟩ ⟨[], []⟩
        [some ⟨some k, some m, some e, none, false, none⟩]).result
      = .error (if k = 2003 then .rb .invalidEmail "Your email was incorrectly formatted."
          else if k = 1001 then
            .rb .missingParameters
              "You are missing parameters for this request, are you sure you entered your username?"
          else if k = 9002 then
            .rb .tooManyRequest "Please temporarily disable making requests and try again later."
          else .rb .urlErr ("error code: " ++ intStr k ++ " msg: " ++ e)) := by
  refine ⟨?_, ?_, ?_, ?_⟩
  · by_cases h1 : k = 2018
    · subst h1; rfl
    · by_cases h2 : k = 3009
      · subst h2; rfl
      · by_cases h3 : k = 3006
        · subst h3; rfl
        · simp +decide [code_login, getBaseUrl, PreparedRequest.request, popResp, pyTruthy,
            pyOptStr, pyOptIntStr, hk, h1, h2, h3]
  · by_cases h1 : k = 2008
    · subst h1; rfl
    · by_cases h2 : k = 9002
      · subst h2; rfl
      · simp +decide [request_code, getBaseUrl, PreparedRequest.request, popResp, pyTruthy,
          pyOptStr, pyOptIntStr, tryAcquire, hk, h1, h2]
  · by_cases h1 : k = 2010
    · subst h1; rfl
    · simp +decide [getHomeId, getBaseUrl, PreparedRequest.request, popResp, pyTruthy,
        pyOptStr, pyOptIntStr, hk, h1]
  · by_cases h1 : k = 2003
    · subst h1; rfl
    · by_cases h2 : k = 1001
      · subst h2; rfl
      · by_cases h3 : k = 9002
        · subst h3; rfl
        · simp +decide [getBaseUrl, PreparedRequest.request, popResp, pyTruthy,
            pyOptStr, pyOptIntStr, hk, h1, h2, h3]

theorem rest_error_code_map_witness :
    (code_login ⟨"user@example.com", some "https://api.example.com", "dev"⟩ ⟨[], []⟩ "1234"
        [some ⟨some 500, some "m", some "e", none, false, none⟩]).result
      = .error (if (500 : Int) = 2018 then
            .rb .invalidCode "Invalid code - check your code and try again."
          else if (500 : Int) = 3009 then
            .rb .noUserAgreement "You must accept the user agreement in the Roborock app to continue."
          else if (500 : Int) = 3006 then
            .rb .invalidUserAgreement
              "User agreement must be accepted again - or you are attempting to use the Mi Home app account."
          else .rb .generic ("m" ++ " - response code: " ++ intStr 500)) :=
  (rest_error_code_map 500 "m" "e" (by decide)).1

theorem digit_toNat (n : Nat) (h : n < 10) : (digitCh n).toNat = 48 + n := by
  interval_cases n <;> rfl

theorem digit_inj (n m : Nat) (hn : n < 10) (hm : m < 10) (h : digitCh n = digitCh m) :
    n = m := by
  have := congrArg Char.toNat h
  rw [digit_toNat n hn, digit_toNat m hm] at this
  omega

theorem digit_ne_quote (n : Nat) (h : n < 10) : digitCh n ≠ '"' := by
  interval_cases n <;> decide

theorem natStrAux_ne_nil : ∀ (fuel n : Nat), n < fuel → natStrAux fuel n ≠ [] := by
  intro fuel n h
  match fuel with
  | f + 1 =>
    by_cases h10 : n < 10
    · simp [natStrAux, h10]
    · simp [natStrAux, h10]

theorem natStrAux_irrel : ∀ (n fuel fuel' : Nat), n < fuel → n < fuel' →
    natStrAux fuel n = natStrAux fuel' n := by
  intro n
  induction n using Nat.strong_induction_on with
  | _ n ih =>
    intro fuel fuel' hf hf'
    match fuel, fuel' with
    | f + 1, g + 1 =>
      by_cases h10 : n < 10
      · simp [natStrAux, h10]
      · have hlt : n / 10 < n := Nat.div_lt_self (by omega) (by norm_num)
        simp only [natStrAux, h10, if_false]
        rw [ih (n / 10) hlt f g (by omega) (by omega)]

theorem append_singleton_inj {a b : List Char} {x y : Char} (h : a ++ [x] = b ++ [y]) :
    a = b ∧ x = y := by
  have hr := congrArg List.reverse h
  simp only [List.reverse_append, List.reverse_singleton, List.singleton_append,
    List.cons.injEq, List.reverse_inj] at hr
  exact ⟨hr.2, hr.1⟩

theorem natStrAux_inj : ∀ (n m fuel fuel' : Nat), n < fuel → m < fuel' →
    natStrAux fuel n = natStrAux fuel' m → n = m := by
  intro n
  induction n using Nat.strong_induction_on with
  | _ n ih =>
    intro m fuel fuel' hf hf' h
    match fuel, fuel' with
    | f + 1, g + 1 =>
      by_cases hn : n < 10
      · by_cases hm : m < 10
        · simp only [natStrAux, hn, hm, if_true, List.cons.injEq] at h
          exact digit_inj n m hn hm h.1
        · simp only [natStrAux, hn, hm, if_true, if_false] at h
          have hlen := congrArg List.length h
          simp only [List.length_cons, List.length_nil, List.length_append] at hlen
          have hne : natStrAux g (m / 10) ≠ [] :=
            natStrAux_ne_nil g (m / 10)
              (lt_of_lt_of_le (Nat.div_lt_self (by omega) (by norm_num)) (by omega))
          have hz : (natStrAux g (m / 10)).length = 0 := by omega
          exact absurd (List.length_eq_zero.mp hz) hne
      · by_cases hm : m < 10
        · simp only [natStrAux, hn, hm, if_true, if_false] at h
          have hlen := congrArg List.length h
          simp only [List.length_cons, List.length_nil, List.length_append] at hlen
          have hne : natStrAux f (n / 10) ≠ [] :=
            natStrAux_ne_nil f (n / 10)
              (lt_of_lt_of_le (Nat.div_lt_self (by omega) (by norm_num)) (by omega))
          have hz : (natStrAux f (n / 10)).length = 0 := by omega
          exact absurd (List.length_eq_zero.mp hz) hne
        · simp only [natStrAux, hn, hm, if_false] at h
          obtain ⟨h1, h2⟩ := append_singleton_inj h
          have hdiv : n / 10 = m / 10 :=
            ih (n / 10) (Nat.div_lt_self (by omega) (by norm_num)) (m / 10) f g
              (by have := Nat.div_lt_self (show 0 < n by omega) (show 1 < 10 by norm_num); omega)
              (by have := Nat.div_lt_self (show 0 < m by omega) (show 1 < 10 by norm_num); omega)
              h1
          have hmod : n % 10 = m % 10 :=
            digit_inj (n % 10) (m % 10) (Nat.mod_lt n (by norm_num)) (Nat.mod_lt m (by norm_num)) h2
          omega

theorem natStr_inj {n m : Nat} (h : natStr n = natStr m) : n = m := by
  have hd := congrArg String.data h
  exact natStrAux_inj n m (n + 1) (m + 1) (by omega) (by omega) hd

theorem natStrAux_no_quote : ∀ (fuel n : Nat), '"' ∉ natStrAux fuel n := by
  intro fuel
  induction fuel with
  | zero => intro n; simp [natStrAux]
  | succ f ih =>
    intro n
    by_cases h10 : n < 10
    · simp only [natStrAux, h10, if_true]
      intro hmem
      rcases List.mem_singleton.mp hmem with heq
      exact digit_ne_quote n h10 heq.symm
    · simp only [natStrAux, h10, if_false]
      intro hmem
      rcases List.mem_append.mp hmem with hm | hm
      · exact ih (n / 10) hm
      · rcases List.mem_singleton.mp hm with heq
        exact digit_ne_quote (n % 10) (Nat.mod_lt n (by omega)) heq.symm

theorem natStr_no_quote (n : Nat) : '"' ∉ (natStr n).data :=
  natStrAux_no_quote (n + 1) n


/-- Claim C3 as stated is false: the signer is deterministic, but changing a
single input does not always change the signature. Here the query parameter
set is changed from `{a: "b&c=d"}` to `{a: "b", c: "d"}` — two different
parameter sets — yet both canonicalize to the joined string `a=b&c=d`, so the
produced signature header is identical. -/
theorem hawk_param_change_counterexample :
    (some [("a", "b&c=d")] : Option (List (String × String))) ≠ some [("a", "b"), ("c", "d")] ∧
    getHawkAuthentication ⟨"uu", "ss", "hh", none⟩ "/path" none (some [("a", "b&c=d")]) 1 "nn"
      = getHawkAuthentication ⟨"uu", "ss", "hh", none⟩ "/path" none
          (some [("a", "b"), ("c", "d")]) 1 "nn" :=
  ⟨by decide, rfl⟩

/-- Claim C3, amended: for fixed inputs two evaluations of the signer produce
the identical header string; changing the credential identifier, the secret-id,
the timestamp or the nonce (none containing a double quote) always changes the
header; but changing the path, query or form parameters changes the header only
through their digests, and distinct parameter sets with the same canonical
join produce the identical signature. -/
theorem hawk_determinism_and_field_injectivity (rr1 rr2 : RRiot) (url1 url2 : String)
    (f1 p1 f2 p2 : Option (List (String × String))) (ts1 ts2 : Nat) (n1 n2 : String)
    (hu1 : '"' ∉ rr1.u.data) (hs1 : '"' ∉ rr1.s.data) (hn1 : '"' ∉ n1.data)
    (hu2 : '"' ∉ rr2.u.data) (hs2 : '"' ∉ rr2.s.data) (hn2 : '"' ∉ n2.data) :
    getHawkAuthentication rr1 url1 f1 p1 ts1 n1 = getHawkAuthentication rr1 url1 f1 p1 ts1 n1 ∧
    (getHawkAuthentication rr1 url1 f1 p1 ts1 n1 = getHawkAuthentication rr2 url2 f2 p2 ts2 n2 →
      rr1.u = rr2.u ∧ rr1.s = rr2.s ∧ ts1 = ts2 ∧ n1 = n2) := by
  refine ⟨rfl, fun h => ?_⟩
  have hd := congrArg String.data h
  simp only [getHawkAuthentication, data_app, List.append_assoc, List.cons_append,
    List.singleton_append, List.nil_append, List.cons.injEq, true_and] at hd
  obtain ⟨hu, h2⟩ := append_sep_inj hu1 hu2 hd
  simp only [List.cons.injEq, true_and] at h2
  obtain ⟨hs, h3⟩ := append_sep_inj hs1 hs2 h2
  simp only [List.cons.injEq, true_and] at h3
  obtain ⟨ht, h4⟩ := append_sep_inj (natStr_no_quote ts1) (natStr_no_quote ts2) h3
  simp only [List.cons.injEq, true_and] at h4
  obtain ⟨hn, _⟩ := append_sep_inj hn1 hn2 h4
  exact ⟨str_ext hu, str_ext hs, natStr_inj (str_ext ht), str_ext hn⟩

theorem hawk_determinism_and_field_injectivity_witness :
    getHawkAuthentication ⟨"uu", "ss", "hh", none⟩ "/path" none none 7 "nn"
      = getHawkAuthentication ⟨"uu", "ss", "hh", none⟩ "/path" none none 7 "nn" ∧
    ("uu" = "uu" ∧ "ss" = "ss" ∧ 7 = 7 ∧ "nn" = "nn") :=
  ⟨(hawk_determinism_and_field_injectivity ⟨"uu", "ss", "hh", none⟩ ⟨"uu", "ss", "hh", none⟩
      "/path" "/path" none none none none 7 7 "nn" "nn"
      (by decide) (by decide) (by decide) (by decide) (by decide) (by decide)).1,
   (hawk_determinism_and_field_injectivity ⟨"uu", "ss", "hh", none⟩ ⟨"uu", "ss", "hh", none⟩
      "/path" "/path" none none none none 7 7 "nn" "nn"
      (by decide) (by decide) (by decide) (by decide) (by decide) (by decide)).2 rfl⟩
